import Mathlib

/-!
# Verification of the todo-mcp-server real-time todo application

Shallow embedding of the todo application: the FastAPI backend handlers
(the in-memory `todos` dict and the `create_todo` / `get_todo` /
`update_todo` / `delete_todo` endpoints, from the design document's
`app/main.py` listing) and the React client (the WebSocket message handler
`handleWebSocketMessage`, the REST fallback `loadTodos`, the `TodoInput`
submit guard, and the WebSocket reconnect logic of `services/api.ts`).

Modelling conventions:
* A Python `UUID` is an opaque identifier: modelled as `Nat`.
* A `datetime` timestamp is opaque: modelled as `Nat`.
* The module-level `todos : Dict[UUID, TodoItem]` is modelled as an
  association list in insertion order (Python 3.7+ dicts preserve
  insertion order; assignment to an existing key keeps its position,
  assignment to a fresh key appends, `del` removes the entry).
* A handler that `raise`s `HTTPException` aborts before mutating, so each
  mutating handler returns the response (`Except`) together with the
  store it leaves behind.
-/

/-- The Pydantic model `TodoItem` (design document §3.1 / `app/main.py`):
`id : UUID`, `title : str`, `created_at : datetime`. The two
`default_factory` fields are filled in at request-parsing time, so the
handler always receives a record with all three fields populated. -/
structure TodoItem where
  id : Nat
  title : String
  created_at : Nat
deriving DecidableEq, Repr

/-- `HTTPException(status_code, detail)` as raised by the handlers. -/
structure HTTPException where
  status_code : Nat
  detail : String
deriving DecidableEq, Repr

/-- The in-memory store `todos : Dict[UUID, TodoItem]`, as an association
list in insertion order. -/
abbrev Todos := List (Nat × TodoItem)

/-- Dict assignment `d[k] = v`: replaces the value in place if the key is
present (keeping its position), otherwise appends the new entry. -/
def dictSet (k : Nat) (v : TodoItem) : Todos → Todos
  | [] => [(k, v)]
  | (k', v') :: rest =>
      if k' = k then (k, v) :: rest else (k', v') :: dictSet k v rest

/-- Dict deletion `del d[k]`: removes the entry with key `k`. (Keys in a
Python dict are unique, so removing every pair with key `k` coincides
with removing the single entry.) -/
def dictDel (k : Nat) : Todos → Todos
  | [] => []
  | (k', v') :: rest =>
      if k' = k then dictDel k rest else (k', v') :: dictDel k rest

/-- Dict lookup `d[k]`, `None` when absent. -/
def dictLookup (k : Nat) : Todos → Option TodoItem
  | [] => none
  | (k', v') :: rest => if k' = k then some v' else dictLookup k rest

/-- Dict membership test `k in d`. -/
def dictMem (k : Nat) : Todos → Bool
  | [] => false
  | (k', _) :: rest => k' == k || dictMem k rest

/-- `GET /api/todos` — `get_todos`: `return list(todos.values())`. -/
def get_todos (todos : Todos) : List TodoItem :=
  todos.map Prod.snd

/-- `POST /api/todos` — `create_todo(todo: TodoItem)`. The body is
parsed into a full `TodoItem` (missing `id`/`created_at` are filled by
`uuid4()` / `datetime.now()`). The handler's guard `if not todo.id:` can
never fire — `todo.id` is a `UUID`, which defines neither `__bool__` nor
`__len__` and is therefore always truthy — and `todo.model_dump()` is
unused, so the handler reduces to `todos[todo.id] = todo; return todo`.
There is no validation of `title`: any string, including the empty
string, is accepted. -/
def create_todo (todo : TodoItem) (todos : Todos) : TodoItem × Todos :=
  (todo, dictSet todo.id todo todos)

/-- `GET /api/todos/{todo_id}` — `get_todo`: 404 when absent. -/
def get_todo (todo_id : Nat) (todos : Todos) : Except HTTPException TodoItem :=
  match dictLookup todo_id todos with
  | none => .error ⟨404, "Todo not found"⟩
  | some t => .ok t

/-- `PUT /api/todos/{todo_id}` — `update_todo`: 404 when absent;
otherwise `updated_todo.created_at = todos[todo_id].created_at` (the
comment in the source reads "Preserve the created_at timestamp"), then
`todos[todo_id] = updated_todo; return updated_todo`. -/
def update_todo (todo_id : Nat) (updated_todo : TodoItem) (todos : Todos) :
    Except HTTPException TodoItem × Todos :=
  match dictLookup todo_id todos with
  | none => (.error ⟨404, "Todo not found"⟩, todos)
  | some old =>
      let u := { updated_todo with created_at := old.created_at }
      (.ok u, dictSet todo_id u todos)

/-- `DELETE /api/todos/{todo_id}` — `delete_todo`: 404 when absent
(raised before any mutation, so the store is returned unchanged);
otherwise `del todos[todo_id]`. -/
def delete_todo (todo_id : Nat) (todos : Todos) :
    Except HTTPException String × Todos :=
  if dictMem todo_id todos then
    (.ok "Todo deleted successfully", dictDel todo_id todos)
  else
    (.error ⟨404, "Todo not found"⟩, todos)

/-! ## Basic dictionary lemmas -/

theorem dictMem_dictSet_self (k : Nat) (v : TodoItem) (d : Todos) :
    dictMem k (dictSet k v d) = true := by
  induction d with
  | nil => simp [dictSet, dictMem]
  | cons p rest ih =>
      obtain ⟨k', v'⟩ := p
      by_cases h : k' = k <;> simp [dictSet, dictMem, h, ih]

theorem dictMem_dictSet_other {j k : Nat} (hjk : j ≠ k) (v : TodoItem) (d : Todos) :
    dictMem j (dictSet k v d) = dictMem j d := by
  induction d with
  | nil => simp [dictSet, dictMem, Ne.symm hjk]
  | cons p rest ih =>
      obtain ⟨k', v'⟩ := p
      by_cases h : k' = k
      · subst h
        simp [dictSet, dictMem, Ne.symm hjk]
      · simp [dictSet, dictMem, h, ih]

theorem dictMem_dictDel_self (k : Nat) (d : Todos) :
    dictMem k (dictDel k d) = false := by
  induction d with
  | nil => simp [dictDel, dictMem]
  | cons p rest ih =>
      obtain ⟨k', v'⟩ := p
      by_cases h : k' = k <;> simp [dictDel, dictMem, h, ih]

theorem dictMem_dictDel_other {j k : Nat} (hjk : j ≠ k) (d : Todos) :
    dictMem j (dictDel k d) = dictMem j d := by
  induction d with
  | nil => simp [dictDel, dictMem]
  | cons p rest ih =>
      obtain ⟨k', v'⟩ := p
      by_cases h : k' = k
      · subst h
        simp [dictDel, dictMem, Ne.symm hjk, ih]
      · simp [dictDel, dictMem, h, ih]

theorem dictLookup_dictSet_self (k : Nat) (v : TodoItem) (d : Todos) :
    dictLookup k (dictSet k v d) = some v := by
  induction d with
  | nil => simp [dictSet, dictLookup]
  | cons p rest ih =>
      obtain ⟨k', v'⟩ := p
      by_cases h : k' = k <;> simp [dictSet, dictLookup, h, ih]

theorem dictLookup_dictSet_other {j k : Nat} (hjk : j ≠ k) (v : TodoItem) (d : Todos) :
    dictLookup j (dictSet k v d) = dictLookup j d := by
  induction d with
  | nil => simp [dictSet, dictLookup, Ne.symm hjk]
  | cons p rest ih =>
      obtain ⟨k', v'⟩ := p
      by_cases h : k' = k
      · subst h
        simp [dictSet, dictLookup, Ne.symm hjk]
      · simp [dictSet, dictLookup, h, ih]

theorem dictLookup_dictDel_self (k : Nat) (d : Todos) :
    dictLookup k (dictDel k d) = none := by
  induction d with
  | nil => simp [dictDel, dictLookup]
  | cons p rest ih =>
      obtain ⟨k', v'⟩ := p
      by_cases h : k' = k <;> simp [dictDel, dictLookup, h, ih]

theorem dictLookup_dictDel_other {j k : Nat} (hjk : j ≠ k) (d : Todos) :
    dictLookup j (dictDel k d) = dictLookup j d := by
  induction d with
  | nil => simp [dictDel, dictLookup]
  | cons p rest ih =>
      obtain ⟨k', v'⟩ := p
      by_cases h : k' = k
      · subst h
        simp [dictDel, dictLookup, Ne.symm hjk, ih]
      · simp [dictDel, dictLookup, h, ih]

theorem dictLength_dictSet_fresh {k : Nat} {d : Todos}
    (h : dictMem k d = false) (v : TodoItem) :
    (dictSet k v d).length = d.length + 1 := by
  induction d with
  | nil => simp [dictSet]
  | cons p rest ih =>
      obtain ⟨k', v'⟩ := p
      simp [dictMem] at h
      obtain ⟨h1, h2⟩ := h
      simp [dictSet, h1, ih h2]

theorem dictLength_dictSet_present {k : Nat} {d : Todos}
    (h : dictMem k d = true) (v : TodoItem) :
    (dictSet k v d).length = d.length := by
  induction d with
  | nil => simp [dictMem] at h
  | cons p rest ih =>
      obtain ⟨k', v'⟩ := p
      by_cases hk : k' = k
      · simp [dictSet, hk]
      · simp [dictMem, hk] at h
        simp [dictSet, hk, ih h]

/-! ## Sequences of create/delete operations against the store -/

/-- A write operation against the store: a `POST /api/todos` request body
(already parsed to a full `TodoItem`) or a `DELETE /api/todos/{id}`. -/
inductive Op where
  | create (todo : TodoItem)
  | delete (id : Nat)
deriving DecidableEq, Repr

/-- The store left behind by one handler invocation (a failed delete
raises 404 and leaves the store as it was). -/
def applyOp (todos : Todos) : Op → Todos
  | .create t => (create_todo t todos).2
  | .delete i => (delete_todo i todos).2

/-- Run a sequence of operations left to right from a given store. -/
def applyOps (ops : List Op) (todos : Todos) : Todos :=
  ops.foldl applyOp todos

/-- Does the operation mention identifier `i` (create it or delete it)? -/
def touches (i : Nat) : Op → Bool
  | .create t => t.id == i
  | .delete j => j == i

/-- Is the operation a create carrying identifier `i`? -/
def isCreateOf (i : Nat) : Op → Bool
  | .create t => t.id == i
  | .delete _ => false

/-- No operation in the list mentions identifier `i`. -/
def untouchedAll (i : Nat) (ops : List Op) : Bool :=
  ops.all (fun op => !touches i op)

/-- The last operation of the list mentioning identifier `i` is a create:
`i` was created by some operation and not deleted by a later one. -/
def survives (i : Nat) : List Op → Bool
  | [] => false
  | op :: rest =>
      if untouchedAll i rest then isCreateOf i op else survives i rest

/-- Every stored entry's value carries its own key as its `id` field
(true of every store reachable by create/delete, since `create_todo`
stores `todo` under key `todo.id`). -/
def wfStore (d : Todos) : Prop :=
  ∀ p ∈ d, (p : Nat × TodoItem).2.id = p.1

/-! ## Client model (React `App` component and `services/api.ts`) -/

/-- The relevant fields of a parsed WebSocket JSON message as consulted
by `handleWebSocketMessage`: the `type` tag plus the payload fields
`todos` (for `"init"`), `todo` (for `"create"`/`"update"`) and `id`
(for `"delete"`). -/
structure WsData where
  type : String
  todos : List TodoItem
  todo : TodoItem
  id : Nat
deriving DecidableEq, Repr

/-- The `App` component's React state: `todos`, `error`, `wsConnected`. -/
structure AppState where
  todos : List TodoItem
  error : Option String
  wsConnected : Bool
deriving DecidableEq, Repr

/-- The initial `App` state: `useState<TodoItem[]>([])`,
`useState<string | null>(null)`, `useState<boolean>(false)`. -/
def initialAppState : AppState :=
  { todos := [], error := none, wsConnected := false }

/-- `handleWebSocketMessage` (App.tsx inside `useEffect`): the `switch`
on `data.type`. `"init"` replaces the list and sets `wsConnected`;
`"create"` appends `data.todo` unconditionally; `"update"` maps over the
list replacing the record with matching id; `"delete"` filters out the
matching id; the `default` case only logs a warning. -/
def handleWebSocketMessage (data : WsData) (st : AppState) : AppState :=
  if data.type = "init" then
    { st with todos := data.todos, wsConnected := true }
  else if data.type = "create" then
    { st with todos := st.todos ++ [data.todo] }
  else if data.type = "update" then
    { st with
      todos := st.todos.map fun t =>
        if t.id == data.todo.id then data.todo else t }
  else if data.type = "delete" then
    { st with todos := st.todos.filter (fun t => t.id != data.id) }
  else
    st

/-- The synchronous part of `loadTodos` before the `await`:
`setError(null)`. -/
def loadTodosStart (st : AppState) : AppState :=
  { st with error := none }

/-- The continuation of `loadTodos` after `fetchTodos()` settles.
`captured` is the value of the `wsConnected` binding that the
`loadTodos` closure captured at the render that created it — NOT the
live component state: React's `useState` gives each render an immutable
snapshot, so the `loadTodos` invoked by the mount effect (empty
dependency array) reads the initial render's `wsConnected`, which is
`false`, no matter how the state has changed by the time the fetch
resolves. On success the guard `if (!wsConnected)` decides whether
`setTodos(data)` runs; on failure `setError(...)` is called. -/
def loadTodosResolve (captured : Bool)
    (result : Except String (List TodoItem)) (st : AppState) : AppState :=
  match result with
  | .ok data => if !captured then { st with todos := data } else st
  | .error _ =>
      { st with error := some "Failed to load todos. Please try again later." }

/-- The `loadTodos` call made by the mount effect: its closure was
created by the initial render, so the captured `wsConnected` is the
initial `false`. -/
def loadTodosMountResolve (result : Except String (List TodoItem))
    (st : AppState) : AppState :=
  loadTodosResolve false result st

/-- Drop leading whitespace characters from a character list. -/
def dropLeadingWs : List Char → List Char
  | [] => []
  | c :: cs => if c.isWhitespace then dropLeadingWs cs else c :: cs

/-- JavaScript `String.prototype.trim()`: strip whitespace from both
ends of the string. -/
def jsTrim (s : String) : String :=
  ⟨(dropLeadingWs (dropLeadingWs s.data.reverse).reverse)⟩

/-- `TodoInput.handleSubmit`: submits `onAddTodo(title.trim())` only
when `title.trim()` is truthy (a non-empty string); otherwise no create
request is issued. Returns the submitted title, if any. -/
def handleSubmit (title : String) : Option String :=
  if jsTrim title ≠ "" then some (jsTrim title) else none

/-- The connection-manager state of `services/api.ts`: the module-level
`isConnecting` flag and the pending reconnect timer (`reconnectTimeout`),
recorded as the delay in milliseconds of the scheduled attempt. -/
structure WsConnState where
  isConnecting : Bool
  reconnectTimeout : Option Nat
deriving DecidableEq, Repr

/-- `socket.onclose` (api.ts): logs, clears `isConnecting`, and
schedules exactly one reconnect attempt via
`reconnectTimeout = setTimeout(..., 5000)`. -/
def socketOnClose (_s : WsConnState) : WsConnState :=
  { isConnecting := false, reconnectTimeout := some 5000 }

/-- Combined client state: the `App` component state plus the
connection-manager state. -/
structure ClientState where
  app : AppState
  conn : WsConnState
deriving DecidableEq, Repr

/-- The whole-client effect of the socket's close event: `onclose` runs
in `services/api.ts` and has no callback into the `App` component, so
the React state (and with it the connection indicator) is untouched. -/
def clientOnClose (cs : ClientState) : ClientState :=
  { app := cs.app, conn := socketOnClose cs.conn }

/-- The connection indicator rendered by `App`: the UI shows
`"Offline mode"` when `wsConnected` is `false` and
`"Live updates connected"` when it is `true`. -/
def offlineIndicator (st : AppState) : Bool :=
  !st.wsConnected

/-! ## Lemmas about operation sequences -/

theorem applyOp_delete_eq (j : Nat) (d : Todos) :
    applyOp d (.delete j) = if dictMem j d then dictDel j d else d := by
  by_cases hm : dictMem j d <;> simp [applyOp, delete_todo, hm]

theorem dictMem_applyOp_delete_self (i : Nat) (d : Todos) :
    dictMem i (applyOp d (.delete i)) = false := by
  rw [applyOp_delete_eq]
  cases h : dictMem i d with
  | true => simp [h, dictMem_dictDel_self]
  | false => simp [h]

theorem dictMem_applyOp_untouched {i : Nat} {op : Op}
    (h : touches i op = false) (d : Todos) :
    dictMem i (applyOp d op) = dictMem i d := by
  cases op with
  | create t =>
      simp [touches] at h
      exact dictMem_dictSet_other (fun hc => h hc.symm) t d
  | delete j =>
      simp [touches] at h
      rw [applyOp_delete_eq]
      cases hm : dictMem j d with
      | true => simp [dictMem_dictDel_other (fun hc => h hc.symm)]
      | false => rfl

theorem survives_of_untouched {i : Nat} {ops : List Op}
    (h : untouchedAll i ops = true) : survives i ops = false := by
  cases ops with
  | nil => rfl
  | cons op rest =>
      simp [untouchedAll, List.all_cons] at h
      obtain ⟨h1, h2⟩ := h
      have hrest : untouchedAll i rest = true := by
        simp [untouchedAll, List.all_eq_true]
        exact fun op' h' => h2 op' h'
      cases op with
      | create t =>
          simp [touches] at h1
          simp [survives, hrest, isCreateOf, h1]
      | delete j =>
          simp [touches] at h1
          simp [survives, hrest, isCreateOf]

theorem untouchedAll_cons (i : Nat) (op : Op) (ops : List Op) :
    untouchedAll i (op :: ops) = (!touches i op && untouchedAll i ops) := by
  simp [untouchedAll, List.all_cons]

theorem survives_cons_touched {i : Nat} {op : Op} {ops : List Op}
    (h : untouchedAll i ops = false) :
    survives i (op :: ops) = survives i ops := by
  simp [survives, h]

theorem survives_cons_untouched {i : Nat} {op : Op} {ops : List Op}
    (h : untouchedAll i ops = true) :
    survives i (op :: ops) = isCreateOf i op := by
  simp [survives, h]

/-- Key invariant: after running `ops` from store `d`, identifier `i` is
present iff either the last operation of `ops` mentioning `i` is a
create, or no operation of `ops` mentions `i` and `i` was present in
`d`. -/
theorem dictMem_applyOps (i : Nat) (ops : List Op) (d : Todos) :
    dictMem i (applyOps ops d) =
      (survives i ops || (untouchedAll i ops && dictMem i d)) := by
  induction ops generalizing d with
  | nil => simp [applyOps, survives, untouchedAll]
  | cons op rest ih =>
      have step : applyOps (op :: rest) d = applyOps rest (applyOp d op) := rfl
      rw [step, ih, untouchedAll_cons]
      cases hu : untouchedAll i rest with
      | false =>
          rw [survives_cons_touched hu]
          simp
      | true =>
          rw [survives_cons_untouched hu, survives_of_untouched hu]
          simp only [Bool.false_or, Bool.and_true, Bool.true_and]
          cases op with
          | create t =>
              by_cases ht : t.id = i
              · subst ht
                simp [applyOp, create_todo, isCreateOf,
                  dictMem_dictSet_self]
              · have hmem :=
                  dictMem_dictSet_other
                    (show i ≠ t.id from fun hc => ht hc.symm) t d
                have hbeq : (t.id == i) = false := by simpa using ht
                simp [applyOp, create_todo, isCreateOf, touches, hbeq, hmem]
          | delete j =>
              by_cases hj : j = i
              · subst hj
                simp [isCreateOf, touches, dictMem_applyOp_delete_self]
              · have hmem :=
                  dictMem_applyOp_untouched
                    (show touches i (Op.delete j) = false by
                      simp [touches, hj]) d
                simp [isCreateOf, touches, hj, hmem]

theorem untouchedAll_eq_true_iff (i : Nat) (ops : List Op) :
    untouchedAll i ops = true ↔ ∀ op ∈ ops, touches i op = false := by
  simp [untouchedAll, List.all_eq_true]

theorem delete_not_mem_of_untouched {i : Nat} {ops : List Op}
    (h : untouchedAll i ops = true) : Op.delete i ∉ ops := by
  intro hmem
  have := (untouchedAll_eq_true_iff i ops).mp h _ hmem
  simp [touches] at this

theorem survives_split_of_mem {i : Nat} {ops : List Op} {t : TodoItem}
    (hmem : Op.create t ∈ ops) (hid : t.id = i)
    (hnd : Op.delete i ∉ ops) :
    ∃ l r t', ops = l ++ Op.create t' :: r ∧ t'.id = i ∧ Op.delete i ∉ r := by
  obtain ⟨l, r, h⟩ := List.append_of_mem hmem
  refine ⟨l, r, t, h, hid, fun hin => hnd ?_⟩
  rw [h]
  exact List.mem_append_right _ (List.mem_cons_of_mem _ hin)

/-- `survives i ops` says exactly that some operation of `ops` is a
create of `i` with no delete of `i` anywhere after it. -/
theorem survives_iff_created_not_deleted (i : Nat) (ops : List Op) :
    survives i ops = true ↔
      ∃ l r t, ops = l ++ Op.create t :: r ∧ t.id = i ∧ Op.delete i ∉ r := by
  induction ops with
  | nil =>
      constructor
      · intro h
        simp [survives] at h
      · rintro ⟨l, r, t, h, -, -⟩
        cases l <;> simp at h
  | cons op rest ih =>
      cases hu : untouchedAll i rest with
      | true =>
          rw [survives_cons_untouched hu]
          constructor
          · intro hc
            cases op with
            | delete j => simp [isCreateOf] at hc
            | create t =>
                simp [isCreateOf] at hc
                exact ⟨[], rest, t, by simp, hc,
                  delete_not_mem_of_untouched hu⟩
          · rintro ⟨l, r, t, heq, hid, hnd⟩
            cases l with
            | nil =>
                simp at heq
                obtain ⟨rfl, rfl⟩ := heq
                simp [isCreateOf, hid]
            | cons a l' =>
                simp at heq
                obtain ⟨rfl, hrest⟩ := heq
                have hmem : Op.create t ∈ rest := by
                  rw [hrest]
                  exact List.mem_append_right _ (List.mem_cons_self _ _)
                have := (untouchedAll_eq_true_iff i rest).mp hu _ hmem
                simp [touches, hid] at this
      | false =>
          rw [survives_cons_touched hu, ih]
          constructor
          · rintro ⟨l, r, t, heq, hid, hnd⟩
            exact ⟨op :: l, r, t, by simp [heq], hid, hnd⟩
          · rintro ⟨l, r, t, heq, hid, hnd⟩
            cases l with
            | cons a l' =>
                simp at heq
                obtain ⟨rfl, hrest⟩ := heq
                exact ⟨l', r, t, hrest, hid, hnd⟩
            | nil =>
                simp at heq
                obtain ⟨rfl, rfl⟩ := heq
                have hex : ∃ op' ∈ rest, touches i op' = true := by
                  by_contra hall
                  push_neg at hall
                  have : untouchedAll i rest = true := by
                    rw [untouchedAll_eq_true_iff]
                    intro op' h'
                    cases htv : touches i op' with
                    | false => rfl
                    | true => exact absurd htv (hall op' h')
                  simp [this] at hu
                obtain ⟨op', hop'mem, hop'⟩ := hex
                cases op' with
                | delete j =>
                    simp [touches] at hop'
                    subst hop'
                    exact absurd hop'mem hnd
                | create t' =>
                    simp [touches] at hop'
                    exact survives_split_of_mem hop'mem hop' hnd

/-! ## Well-formedness: stored values carry their key as id -/

theorem wfStore_nil : wfStore [] := by
  intro p hp
  simp at hp

theorem wfStore_dictSet {d : Todos} (hw : wfStore d) {k : Nat}
    {v : TodoItem} (hv : v.id = k) : wfStore (dictSet k v d) := by
  induction d with
  | nil =>
      intro p hp
      simp [dictSet] at hp
      simp [hp, hv]
  | cons q rest ih =>
      obtain ⟨k', v'⟩ := q
      have hw' : wfStore rest := fun p hp => hw p (List.mem_cons_of_mem _ hp)
      by_cases h : k' = k
      · intro p hp
        simp [dictSet, h] at hp
        rcases hp with hp | hp
        · simp [hp, hv]
        · exact hw p (List.mem_cons_of_mem _ hp)
      · intro p hp
        simp only [dictSet, if_neg h] at hp
        rcases List.mem_cons.mp hp with hp | hp
        · subst hp
          exact hw _ (List.mem_cons_self _ _)
        · exact ih hw' p hp

theorem wfStore_dictDel {d : Todos} (hw : wfStore d) (k : Nat) :
    wfStore (dictDel k d) := by
  induction d with
  | nil =>
      intro p hp
      simp [dictDel] at hp
  | cons q rest ih =>
      obtain ⟨k', v'⟩ := q
      have hw' : wfStore rest := fun p hp => hw p (List.mem_cons_of_mem _ hp)
      by_cases h : k' = k
      · simpa [dictDel, h] using ih hw'
      · intro p hp
        simp only [dictDel, if_neg h] at hp
        rcases List.mem_cons.mp hp with hp | hp
        · subst hp
          exact hw _ (List.mem_cons_self _ _)
        · exact ih hw' p hp

theorem wfStore_applyOp {d : Todos} (hw : wfStore d) (op : Op) :
    wfStore (applyOp d op) := by
  cases op with
  | create t => exact wfStore_dictSet hw rfl
  | delete j =>
      rw [applyOp_delete_eq]
      cases hm : dictMem j d with
      | true => simpa using wfStore_dictDel hw j
      | false => simpa using hw

theorem wfStore_applyOps (ops : List Op) {d : Todos} (hw : wfStore d) :
    wfStore (applyOps ops d) := by
  induction ops generalizing d with
  | nil => simpa [applyOps] using hw
  | cons op rest ih => exact ih (wfStore_applyOp hw op)

/-- In a well-formed store, the identifiers appearing in the `list()`
response are exactly the keys of the dict. -/
theorem mem_ids_get_todos {d : Todos} (hw : wfStore d) (i : Nat) :
    i ∈ (get_todos d).map TodoItem.id ↔ dictMem i d = true := by
  induction d with
  | nil => simp [get_todos, dictMem]
  | cons q rest ih =>
      obtain ⟨k', v'⟩ := q
      have hw' : wfStore rest := fun p hp => hw p (List.mem_cons_of_mem _ hp)
      have hid : v'.id = k' := hw _ (List.mem_cons_self _ _)
      have hcons : (get_todos ((k', v') :: rest)).map TodoItem.id
          = v'.id :: (get_todos rest).map TodoItem.id := by
        simp [get_todos]
      rw [hcons, List.mem_cons, ih hw', hid]
      simp only [dictMem, Bool.or_eq_true, beq_iff_eq]
      constructor
      · rintro (h | h)
        · exact Or.inl h.symm
        · exact Or.inr h
      · rintro (h | h)
        · exact Or.inl h.symm
        · exact Or.inr h

/-! ## Claim theorems -/

/-- **C1** (confirmed): for every finite sequence of create and delete
operations applied to the initially empty store, the identifiers in the
result of `list()` (`get_todos`) after the sequence are exactly the
identifiers created by some operation of the sequence and not deleted by
a later operation. -/
theorem c1_list_ids_iff_created_not_later_deleted (ops : List Op) (i : Nat) :
    i ∈ (get_todos (applyOps ops [])).map TodoItem.id ↔
      ∃ l r t, ops = l ++ Op.create t :: r ∧ t.id = i ∧ Op.delete i ∉ r := by
  rw [mem_ids_get_todos (wfStore_applyOps ops wfStore_nil) i,
    dictMem_applyOps]
  simp only [dictMem, Bool.and_false, Bool.or_false]
  exact survives_iff_created_not_deleted i ops

/-- **C2** (counterexample): the claim that the Store's create fails with
a `ValidationError` on a title that is empty after trimming is false:
`create_todo` performs no title validation, so a request whose title is
the empty string succeeds and inserts a record. -/
theorem c2_counterexample_empty_title_accepted :
    jsTrim "" = "" ∧
      create_todo ⟨7, "", 0⟩ [] = (⟨7, "", 0⟩, [(7, ⟨7, "", 0⟩)]) := by
  constructor
  · rfl
  · rfl

/-- **C2** (amended): the Store's create operation accepts every title —
it always succeeds, returns the given record and inserts it — while the
empty-after-trim guard lives only in the client: `TodoInput.handleSubmit`
issues no create request when the title is empty after trimming, and for
a title non-empty after trimming it submits the trimmed title. -/
theorem c2_amended_create_unvalidated_client_guards
    (title : String) (todo : TodoItem) (todos : Todos) :
    (jsTrim title = "" → handleSubmit title = none) ∧
      (jsTrim title ≠ "" → handleSubmit title = some (jsTrim title)) ∧
      (create_todo todo todos).1 = todo ∧
      dictLookup todo.id (create_todo todo todos).2 = some todo := by
  refine ⟨fun h => by simp [handleSubmit, h],
    fun h => by simp [handleSubmit, h], rfl, ?_⟩
  simp [create_todo, dictLookup_dictSet_self]

/-- Witness for `c2_amended_create_unvalidated_client_guards` at the
empty title, and at a concrete non-empty title and store. -/
theorem c2_amended_witness :
    handleSubmit "" = none ∧
      handleSubmit "buy milk" = some "buy milk" ∧
      (create_todo ⟨7, "", 0⟩ []).1 = ⟨7, "", 0⟩ ∧
      dictLookup 7 (create_todo ⟨7, "", 0⟩ []).2 = some ⟨7, "", 0⟩ :=
  ⟨(c2_amended_create_unvalidated_client_guards "" ⟨7, "", 0⟩ []).1 rfl,
    (c2_amended_create_unvalidated_client_guards "buy milk" ⟨7, "", 0⟩ []).2.1
      (by decide),
    (c2_amended_create_unvalidated_client_guards "" ⟨7, "", 0⟩ []).2.2.1,
    (c2_amended_create_unvalidated_client_guards "" ⟨7, "", 0⟩ []).2.2.2⟩

/-- **C3** (confirmed): deleting an identifier absent from the store
fails with the 404 `HTTPException` ("Todo not found") and returns the
store exactly as it was; deleting a present identifier succeeds and
removes exactly that entry (its key no longer resolves, every other key
resolves as before). -/
theorem c3_delete_absent_404_present_removes (todo_id : Nat) (todos : Todos) :
    (dictMem todo_id todos = false →
      delete_todo todo_id todos = (.error ⟨404, "Todo not found"⟩, todos)) ∧
      (dictMem todo_id todos = true →
        (delete_todo todo_id todos).1 = .ok "Todo deleted successfully" ∧
          dictLookup todo_id (delete_todo todo_id todos).2 = none ∧
          ∀ j, j ≠ todo_id →
            dictLookup j (delete_todo todo_id todos).2 = dictLookup j todos) := by
  constructor
  · intro h
    simp [delete_todo, h]
  · intro h
    refine ⟨by simp [delete_todo, h], ?_, ?_⟩
    · simp [delete_todo, h, dictLookup_dictDel_self]
    · intro j hj
      simp [delete_todo, h, dictLookup_dictDel_other hj]

/-- Witness for `c3_delete_absent_404_present_removes`: identifier 2 is
absent from the one-entry store, identifier 1 is present. -/
theorem c3_witness :
    delete_todo 2 [(1, ⟨1, "a", 0⟩)] =
        (.error ⟨404, "Todo not found"⟩, [(1, ⟨1, "a", 0⟩)]) ∧
      dictLookup 1 (delete_todo 1 [(1, ⟨1, "a", 0⟩)]).2 = none ∧
      dictLookup 2 (delete_todo 1 [(1, ⟨1, "a", 0⟩)]).2 =
        dictLookup 2 [(1, ⟨1, "a", 0⟩)] :=
  ⟨(c3_delete_absent_404_present_removes 2 [(1, ⟨1, "a", 0⟩)]).1 (by decide),
    ((c3_delete_absent_404_present_removes 1 [(1, ⟨1, "a", 0⟩)]).2
      (by decide)).2.1,
    ((c3_delete_absent_404_present_removes 1 [(1, ⟨1, "a", 0⟩)]).2
      (by decide)).2.2 2 (by decide)⟩

/-- **C4** (counterexample): the claim that every successful create has
a fresh identifier and grows the store by exactly one is false:
`create_todo` accepts the identifier carried by the request body, and a
request reusing an existing identifier succeeds, overwrites the entry
and leaves the size unchanged. -/
theorem c4_counterexample_duplicate_id_overwrites :
    dictMem (create_todo ⟨1, "b", 5⟩ [(1, ⟨1, "a", 0⟩)]).1.id
        [(1, ⟨1, "a", 0⟩)] = true ∧
      (create_todo ⟨1, "b", 5⟩ [(1, ⟨1, "a", 0⟩)]).2.length =
        ([(1, ⟨1, "a", 0⟩)] : Todos).length ∧
      (create_todo ⟨1, "b", 5⟩ [(1, ⟨1, "a", 0⟩)]).2.length ≠
        ([(1, ⟨1, "a", 0⟩)] : Todos).length + 1 := by
  refine ⟨rfl, rfl, by decide⟩

/-- **C4** (amended): a successful create whose record identifier is not
already in the store returns that identifier — distinct from every
stored identifier — and grows the store by exactly one; a create whose
identifier is already present overwrites the entry and leaves the size
unchanged. -/
theorem c4_amended_create_fresh_grows_by_one (todo : TodoItem) (todos : Todos) :
    (dictMem todo.id todos = false →
      (create_todo todo todos).2.length = todos.length + 1 ∧
        ∀ k, dictMem k todos = true → (create_todo todo todos).1.id ≠ k) ∧
      (dictMem todo.id todos = true →
        (create_todo todo todos).2.length = todos.length) := by
  constructor
  · intro h
    refine ⟨by simpa [create_todo] using dictLength_dictSet_fresh h todo, ?_⟩
    intro k hk hik
    rw [show (create_todo todo todos).1 = todo from rfl] at hik
    rw [hik] at h
    rw [h] at hk
    exact Bool.false_ne_true hk
  · intro h
    simpa [create_todo] using dictLength_dictSet_present h todo

/-- Witness for `c4_amended_create_fresh_grows_by_one`: creating id 2
over a store holding only id 1, and re-creating id 1. -/
theorem c4_amended_witness :
    (create_todo ⟨2, "b", 5⟩ [(1, ⟨1, "a", 0⟩)]).2.length =
        ([(1, ⟨1, "a", 0⟩)] : Todos).length + 1 ∧
      (create_todo ⟨2, "b", 5⟩ [(1, ⟨1, "a", 0⟩)]).1.id ≠ 1 ∧
      (create_todo ⟨1, "b", 5⟩ [(1, ⟨1, "a", 0⟩)]).2.length =
        ([(1, ⟨1, "a", 0⟩)] : Todos).length :=
  ⟨((c4_amended_create_fresh_grows_by_one ⟨2, "b", 5⟩ [(1, ⟨1, "a", 0⟩)]).1
      (by decide)).1,
    ((c4_amended_create_fresh_grows_by_one ⟨2, "b", 5⟩ [(1, ⟨1, "a", 0⟩)]).1
      (by decide)).2 1 (by decide),
    (c4_amended_create_fresh_grows_by_one ⟨1, "b", 5⟩ [(1, ⟨1, "a", 0⟩)]).2
      (by decide)⟩

theorem filter_ne_idem (i : Nat) (l : List TodoItem) :
    ((l.filter fun t => t.id != i).filter fun t => t.id != i) =
      l.filter fun t => t.id != i := by
  induction l with
  | nil => rfl
  | cons t rest ih =>
      by_cases h : t.id = i <;> simp [List.filter_cons, h, ih]

/-- **C5** (counterexample): the claim that a `created` event appends
the task only if not already present (hence is idempotent) is false: the
`"create"` case appends `data.todo` unconditionally, so delivering the
event to a list already containing the task duplicates it, and a second
delivery changes the list again. -/
theorem c5_counterexample_create_event_not_idempotent :
    (handleWebSocketMessage ⟨"create", [], ⟨1, "a", 0⟩, 0⟩
        ⟨[⟨1, "a", 0⟩], none, true⟩).todos = [⟨1, "a", 0⟩, ⟨1, "a", 0⟩] ∧
      handleWebSocketMessage ⟨"create", [], ⟨1, "a", 0⟩, 0⟩
          (handleWebSocketMessage ⟨"create", [], ⟨1, "a", 0⟩, 0⟩
            ⟨[⟨1, "a", 0⟩], none, true⟩) ≠
        handleWebSocketMessage ⟨"create", [], ⟨1, "a", 0⟩, 0⟩
          ⟨[⟨1, "a", 0⟩], none, true⟩ := by
  decide

/-- **C5** (amended): processing a `created` event appends the carried
task to the client-local list unconditionally — with no presence check —
so processing the same event twice appends the task twice. -/
theorem c5_amended_create_event_appends_unconditionally
    (d : WsData) (st : AppState) (h : d.type = "create") :
    (handleWebSocketMessage d st).todos = st.todos ++ [d.todo] ∧
      (handleWebSocketMessage d (handleWebSocketMessage d st)).todos =
        st.todos ++ [d.todo, d.todo] := by
  constructor <;> simp [handleWebSocketMessage, h]

/-- Witness for `c5_amended_create_event_appends_unconditionally` at a
concrete `create` event and the initial client state. -/
theorem c5_amended_witness :
    (handleWebSocketMessage ⟨"create", [], ⟨1, "a", 0⟩, 0⟩
        initialAppState).todos = initialAppState.todos ++ [⟨1, "a", 0⟩] ∧
      (handleWebSocketMessage ⟨"create", [], ⟨1, "a", 0⟩, 0⟩
          (handleWebSocketMessage ⟨"create", [], ⟨1, "a", 0⟩, 0⟩
            initialAppState)).todos =
        initialAppState.todos ++ [⟨1, "a", 0⟩, ⟨1, "a", 0⟩] :=
  c5_amended_create_event_appends_unconditionally
    ⟨"create", [], ⟨1, "a", 0⟩, 0⟩ initialAppState rfl

/-- **C6** (confirmed): a `deleted` event is idempotent — applying it
twice yields the same client state as applying it once — and applying it
when no task carries the identifier leaves the state unchanged. -/
theorem c6_delete_event_idempotent (d : WsData) (st : AppState)
    (h : d.type = "delete") :
    handleWebSocketMessage d (handleWebSocketMessage d st) =
        handleWebSocketMessage d st ∧
      ((∀ t ∈ st.todos, t.id ≠ d.id) → handleWebSocketMessage d st = st) := by
  constructor
  · simp [handleWebSocketMessage, h, filter_ne_idem]
  · intro hall
    have : (st.todos.filter fun t => t.id != d.id) = st.todos := by
      rw [List.filter_eq_self]
      intro t ht
      simpa using hall t ht
    simp [handleWebSocketMessage, h, this]

/-- Witness for `c6_delete_event_idempotent`: a `delete` event for
identifier 2 against a list holding only identifier 1. -/
theorem c6_witness :
    handleWebSocketMessage ⟨"delete", [], ⟨0, "", 0⟩, 2⟩
        (handleWebSocketMessage ⟨"delete", [], ⟨0, "", 0⟩, 2⟩
          ⟨[⟨1, "a", 0⟩], none, true⟩) =
      handleWebSocketMessage ⟨"delete", [], ⟨0, "", 0⟩, 2⟩
        ⟨[⟨1, "a", 0⟩], none, true⟩ ∧
      handleWebSocketMessage ⟨"delete", [], ⟨0, "", 0⟩, 2⟩
          ⟨[⟨1, "a", 0⟩], none, true⟩ =
        ⟨[⟨1, "a", 0⟩], none, true⟩ :=
  ⟨(c6_delete_event_idempotent ⟨"delete", [], ⟨0, "", 0⟩, 2⟩
      ⟨[⟨1, "a", 0⟩], none, true⟩ rfl).1,
    (c6_delete_event_idempotent ⟨"delete", [], ⟨0, "", 0⟩, 2⟩
      ⟨[⟨1, "a", 0⟩], none, true⟩ rfl).2 (by decide)⟩

/-- The client state after the mount render has started the fallback
fetch (`loadTodosStart`) and an `"init"` snapshot carrying one task has
been processed while that fetch is still in flight. -/
def stateAfterInitSnapshot : AppState :=
  handleWebSocketMessage ⟨"init", [⟨1, "task", 0⟩], ⟨0, "", 0⟩, 0⟩
    (loadTodosStart initialAppState)

/-- **C7** (code bug): after the snapshot is processed, `wsConnected`
is `true` and the list holds the snapshot task; yet when the one-shot
fetch (returning the pre-snapshot list `[]`) resolves, the guard
`if (!wsConnected)` inside the mount render's `loadTodos` closure reads
the stale captured value `false`, so `setTodos` runs and clobbers the
snapshot data — the list becomes `[]`. The final conjunct shows the
behaviour the code's own comment ("Only set todos from REST API if
WebSocket hasn't already provided them") intends: had the guard read the
current `wsConnected`, the late result would have been discarded. -/
theorem c7_stale_guard_clobbers_snapshot :
    stateAfterInitSnapshot.wsConnected = true ∧
      stateAfterInitSnapshot.todos = [⟨1, "task", 0⟩] ∧
      (loadTodosMountResolve (.ok []) stateAfterInitSnapshot).todos = [] ∧
      loadTodosResolve stateAfterInitSnapshot.wsConnected (.ok [])
          stateAfterInitSnapshot = stateAfterInitSnapshot := by
  decide

/-- **C8** (confirmed): updating a stored task preserves its creation
timestamp: after `update_todo`, the record stored under the updated
identifier carries the `created_at` it had before the update, whatever
`created_at` the request body carried. -/
theorem c8_update_preserves_created_at (todo_id : Nat) (upd : TodoItem)
    (todos : Todos) (old : TodoItem)
    (h : dictLookup todo_id todos = some old) :
    (dictLookup todo_id (update_todo todo_id upd todos).2).map
        TodoItem.created_at = some old.created_at := by
  simp [update_todo, h, dictLookup_dictSet_self]

/-- Witness for `c8_update_preserves_created_at`: updating the task with
identifier 1 (created at time 42) with a body carrying time 99 keeps 42. -/
theorem c8_witness :
    (dictLookup 1 (update_todo 1 ⟨1, "b", 99⟩ [(1, ⟨1, "a", 42⟩)]).2).map
        TodoItem.created_at = some 42 :=
  c8_update_preserves_created_at 1 ⟨1, "b", 99⟩ [(1, ⟨1, "a", 42⟩)]
    ⟨1, "a", 42⟩ (by decide)

/-- **C9** (counterexample): the claim that the consumer-visible state
reports a degraded/offline indicator while disconnected is false: the
`onclose` handler never clears `wsConnected`, so a client that had
received the snapshot (`wsConnected = true`) still reports
"Live updates connected" after the connection closes — the offline
indicator stays off — even though a reconnect is correctly scheduled. -/
theorem c9_counterexample_no_offline_indicator_after_close :
    offlineIndicator
        (clientOnClose ⟨⟨[], none, true⟩, ⟨false, none⟩⟩).app = false ∧
      (clientOnClose
          ⟨⟨[], none, true⟩, ⟨false, none⟩⟩).conn.reconnectTimeout =
        some 5000 := by
  decide

/-- **C9** (amended): whenever the live connection closes, exactly one
reconnect attempt is scheduled after the fixed delay of 5000 ms — a
positive delay, so the client never busy-loops — but the React state is
untouched, so the offline indicator keeps whatever value it had: it is
shown only if no `init` snapshot had been received before the close. -/
theorem c9_amended_reconnect_fixed_delay_app_untouched (cs : ClientState) :
    (clientOnClose cs).conn.reconnectTimeout = some 5000 ∧
      (0 : Nat) < 5000 ∧
      (clientOnClose cs).app = cs.app ∧
      offlineIndicator (clientOnClose cs).app = offlineIndicator cs.app := by
  exact ⟨rfl, by decide, rfl, rfl⟩

/-- **C10** (confirmed): an inbound message whose type tag is none of
the four recognized kinds (`"init"`, `"create"`, `"update"`,
`"delete"`) falls into the `default` case, which only logs a warning:
the whole client state — the task list included — is unchanged. -/
theorem c10_unknown_event_leaves_state_unchanged (d : WsData) (st : AppState)
    (h : d.type ∉ (["init", "create", "update", "delete"] : List String)) :
    handleWebSocketMessage d st = st := by
  simp only [List.mem_cons, List.not_mem_nil, or_false, not_or] at h
  obtain ⟨h1, h2, h3, h4⟩ := h
  simp [handleWebSocketMessage, h1, h2, h3, h4]

/-- Witness for `c10_unknown_event_leaves_state_unchanged` at a
`"ping"`-tagged message and the initial client state. -/
theorem c10_witness :
    handleWebSocketMessage ⟨"ping", [], ⟨0, "", 0⟩, 0⟩ initialAppState =
      initialAppState :=
  c10_unknown_event_leaves_state_unchanged ⟨"ping", [], ⟨0, "", 0⟩, 0⟩
    initialAppState (by decide)
